import Mathlib

/-!
Verification of the downloader-orchestration core of the Youtube-Downloader
repository: a shallow embedding of `format_handler.py`, `url_utils.py` and the
`PlaylistErrorTracker` / `DownloadThread` logic of `download_thread.py`,
together with theorems settling the specification claims.

Strings are modelled as `List Char` (Python `str`), dictionaries with a fixed
literal key set as association lists, and Python's `dict.get(k, d)` as a
defaulted lookup.
-/

namespace YTD

/-! ## String primitives (substring search, splitting, lowercasing) -/

/-- Does `pat` occur at the very start of the second list? -/
def matchAt : List Char → List Char → Bool
  | [], _ => true
  | _ :: _, [] => false
  | p :: ps, c :: cs => p == c && matchAt ps cs

/-- Python's `pat in s` substring test (for a literal pattern). -/
def hasSub (pat : List Char) : List Char → Bool
  | [] => matchAt pat []
  | c :: cs => matchAt pat (c :: cs) || hasSub pat cs

/-- ASCII lowercasing of every character, modelling `re.IGNORECASE` matching of
an all-ASCII literal pattern. -/
def lowerStr (s : List Char) : List Char := s.map Char.toLower

/-- The characters of `s` strictly before the first occurrence of `sep`
(all of `s` when `sep` does not occur). -/
def upToNext (sep : List Char) : List Char → List Char
  | [] => []
  | c :: cs => if matchAt sep (c :: cs) then [] else c :: upToNext sep cs

/-- The characters of `s` strictly after the first occurrence of `sep`
(`[]` when `sep` does not occur; the source would raise `IndexError` there,
but every call site first checks a containing marker). -/
def afterFirst (sep : List Char) : List Char → List Char
  | [] => []
  | c :: cs => if matchAt sep (c :: cs) then (c :: cs).drop sep.length else afterFirst sep cs

/-- Python `msg.split(sep)[1]`: the text between the first and the second
occurrence of `sep`. -/
def splitSecond (sep s : List Char) : List Char := upToNext sep (afterFirst sep s)

/-- `os.path.basename` on a POSIX-style path: the suffix after the last slash. -/
def baseName (s : List Char) : List Char := (s.reverse.takeWhile (fun c => c != '/')).reverse

/-! ## format_handler.py -/

/-- `get_quality_reverse_map` of `format_handler.py`: localized quality names
to standard values. -/
def get_quality_reverse_map : List (List Char × List Char) :=
  [("Best".data, "Best".data), ("Lowest".data, "Lowest".data),
   ("Beste".data, "Best".data), ("Niedrigste".data, "Lowest".data),
   ("Mejor".data, "Best".data), ("Más baja".data, "Lowest".data),
   ("Meilleure".data, "Best".data), ("Plus faible".data, "Lowest".data),
   ("High Quality".data, "High".data), ("Medium Quality".data, "Medium".data),
   ("Low Quality".data, "Low".data),
   ("Hohe Qualität".data, "High".data), ("Mittlere Qualität".data, "Medium".data),
   ("Niedrige Qualität".data, "Low".data),
   ("Alta calidad".data, "High".data), ("Calidad media".data, "Medium".data),
   ("Baja calidad".data, "Low".data),
   ("Haute qualité".data, "High".data), ("Qualité moyenne".data, "Medium".data),
   ("Basse qualité".data, "Low".data)]

/-- Association-list lookup (Python dict indexing for these literal dicts). -/
def lookupOpt (m : List (List Char × List Char)) (k : List Char) : Option (List Char) :=
  match m with
  | [] => none
  | kv :: rest => if kv.1 = k then some kv.2 else lookupOpt rest k

/-- Python `dict.get(k, d)`. -/
def lookupD (m : List (List Char × List Char)) (k d : List Char) : List Char :=
  (lookupOpt m k).getD d

/-- `quality_reverse_map.get(quality, quality)` — the localization of a quality
label to its standard token (the spec's `QualityLocalizer.canonicalize`). -/
def canonicalize (q : List Char) : List Char := lookupD get_quality_reverse_map q q

/-- The MP4 `quality_formats` dict of `get_format_options`. -/
def mp4_quality_formats : List (List Char × List Char) :=
  [("Best".data, "bestvideo[ext=mp4]+bestaudio[ext=m4a]/best[ext=mp4]".data),
   ("1080p".data, "bestvideo[height<=1080][ext=mp4]+bestaudio[ext=m4a]/best[height<=1080][ext=mp4]".data),
   ("720p".data, "bestvideo[height<=720][ext=mp4]+bestaudio[ext=m4a]/best[height<=720][ext=mp4]".data),
   ("480p".data, "bestvideo[height<=480][ext=mp4]+bestaudio[ext=m4a]/best[height<=480][ext=mp4]".data),
   ("360p".data, "bestvideo[height<=360][ext=mp4]+bestaudio[ext=m4a]/best[height<=360][ext=mp4]".data),
   ("Lowest".data, "worst[ext=mp4]".data)]

/-- The WEBM `quality_formats` dict of `get_format_options`. -/
def webm_quality_formats : List (List Char × List Char) :=
  [("Best".data, "bestvideo[ext=webm]+bestaudio[ext=webm]/best[ext=webm]".data),
   ("1080p".data, "bestvideo[height<=1080][ext=webm]+bestaudio[ext=webm]/best[height<=1080][ext=webm]".data),
   ("720p".data, "bestvideo[height<=720][ext=webm]+bestaudio[ext=webm]/best[height<=720][ext=webm]".data),
   ("480p".data, "bestvideo[height<=480][ext=webm]+bestaudio[ext=webm]/best[height<=480][ext=webm]".data),
   ("360p".data, "bestvideo[height<=360][ext=webm]+bestaudio[ext=webm]/best[height<=360][ext=webm]".data),
   ("Lowest".data, "worst[ext=webm]".data)]

/-- The MP3 `audio_quality_map` (bitrates) of `get_format_options`. -/
def audio_quality_map : List (List Char × List Char) :=
  [("High".data, "320".data), ("Medium".data, "192".data), ("Low".data, "128".data)]

/-- The WAV `audio_source_map` of `get_format_options`. -/
def audio_source_map : List (List Char × List Char) :=
  [("High".data, "bestaudio[abr>=320]/bestaudio/best".data),
   ("Medium".data, "bestaudio[abr>=192]/bestaudio/best".data),
   ("Low".data, "bestaudio[abr>=128]/bestaudio/best".data)]

/-- One yt-dlp post-processor dict; `preferredquality` is `none` when the dict
has no such key (the WAV post-processor). -/
structure PostProcessor where
  key : List Char
  preferredcodec : List Char
  preferredquality : Option (List Char)
deriving DecidableEq

/-- `get_format_options` of `format_handler.py`: yt-dlp format string and
post-processors from the selected format and (possibly localized) quality. -/
def get_format_options (format_type quality : List Char) : List Char × List PostProcessor :=
  let standard_quality := canonicalize quality
  if format_type = ("MP4".data) then
    (lookupD mp4_quality_formats standard_quality (lookupD mp4_quality_formats ("Best".data) []), [])
  else if format_type = ("WEBM".data) then
    (lookupD webm_quality_formats standard_quality (lookupD webm_quality_formats ("Best".data) []), [])
  else if format_type = ("MP3".data) then
    ("bestaudio/best".data,
     [⟨"FFmpegExtractAudio".data, "mp3".data, some (lookupD audio_quality_map standard_quality ("192".data))⟩])
  else if format_type = ("WAV".data) then
    (lookupD audio_source_map standard_quality ("bestaudio/best".data),
     [⟨"FFmpegExtractAudio".data, "wav".data, none⟩])
  else ("best".data, [])

/-! ## url_utils.py -/

/-- `is_playlist_url` of `url_utils.py`: `re.search` with `re.IGNORECASE` over
the three literal patterns `[?&]list=`, `/playlist\?`, `[?&]index=`, the
character class expanded into its two alternatives. -/
def is_playlist_url (url : List Char) : Bool :=
  let u := lowerStr url
  hasSub ("?list=".data) u || hasSub ("&list=".data) u ||
  hasSub ("/playlist?".data) u ||
  hasSub ("?index=".data) u || hasSub ("&index=".data) u

/-! ## download_thread.py — PlaylistErrorTracker -/

/-- The character class `[a-zA-Z0-9_-]` of the video-id regex. -/
def isIdChar (c : Char) : Bool := c.isUpper || c.isLower || c.isDigit || c == '_' || c == '-'

/-- `re.search(r'[a-zA-Z0-9_-]{11}', msg)`: the leftmost run of eleven
consecutive id-characters (the first eleven of a longer run). -/
def extractVideoId : List Char → Option (List Char)
  | [] => none
  | c :: cs =>
    let pre := (c :: cs).take 11
    if pre.length == 11 && pre.all isIdChar then some pre
    else extractVideoId cs

/-- The word class `\w` = `[a-zA-Z0-9_]`. -/
def isWordChar (c : Char) : Bool := c.isUpper || c.isLower || c.isDigit || c == '_'

/-- Does `cs` match `\w+\.\w+` exactly (to its end)?  Since `.` and `-` are
not word characters, the first `\w+` is forced to be the maximal word run. -/
def wordDotWord (cs : List Char) : Bool :=
  let a := cs.takeWhile isWordChar
  let r := cs.drop a.length
  (!a.isEmpty) &&
    (match r with
     | '.' :: b => (!b.isEmpty) && b.all isWordChar
     | _ => false)

/-- `re.sub(r'-\w+\.\w+$', '', filename)`: delete from the leftmost `-` whose
remainder matches `\w+\.\w+` to the end of the string. -/
def stripQualitySuffix : List Char → List Char
  | [] => []
  | c :: cs => if c == '-' && wordDotWord cs then [] else c :: stripQualitySuffix cs

def destinationMarker : List Char := "[download] Destination:".data

def destinationSep : List Char := "Destination: ".data

def alreadyDownloadedMarker : List Char := "has already been downloaded".data

def skippingMarker : List Char := "Skipping".data

def watchUrlStem : List Char := "https://www.youtube.com/watch?v=".data

/-- `_extract_title_from_msg`: the destination filename without its quality
suffix and extension, else the "Unknown Title" sentinel. -/
def extractTitleFromMsg (msg : List Char) : List Char :=
  if hasSub destinationMarker msg then
    stripQualitySuffix (baseName (splitSecond destinationSep msg))
  else "Unknown Title".data

/-- `_extract_skipped_title`. -/
def extractSkippedTitle (msg : List Char) : List Char :=
  if hasSub alreadyDownloadedMarker msg then
    match extractVideoId msg with
    | some vid => ("Video ".data) ++ vid
    | none => "Previously Downloaded Video".data
  else "Skipped Video".data

/-- A `{'id':…, 'title':…, 'message':…}` record of `successful_videos` /
`skipped_videos`. -/
structure VideoRec where
  id : List Char
  title : List Char
  message : List Char
deriving DecidableEq

/-- A `failed_videos` record; `url` is always set in an appended record, since
records are only returned once an id was extracted. -/
structure FailedRec where
  id : List Char
  title : List Char
  error : List Char
  url : List Char
deriving DecidableEq

/-- The mutable state of a `PlaylistErrorTracker`; `printed` records the
console `print` calls (the diagnostics channel). -/
structure Tracker where
  failed_videos : List FailedRec
  successful_videos : List VideoRec
  skipped_videos : List VideoRec
  warnings : List (List Char)
  printed : List (List Char)
deriving DecidableEq

/-- `PlaylistErrorTracker.__init__`. -/
def initialTracker : Tracker := ⟨[], [], [], [], []⟩

/-- `PlaylistErrorTracker.info`. -/
def trackerInfo (t : Tracker) (msg : List Char) : Tracker :=
  if hasSub destinationMarker msg then
    match extractVideoId msg with
    | some vid =>
      if t.successful_videos.any (fun v => v.id == vid) then t
      else { t with successful_videos :=
               t.successful_videos ++ [⟨vid, extractTitleFromMsg msg, msg⟩] }
    | none => t
  else if hasSub alreadyDownloadedMarker msg || hasSub skippingMarker msg then
    match extractVideoId msg with
    | some vid =>
      if t.skipped_videos.any (fun v => v.id == vid) then t
      else { t with skipped_videos :=
               t.skipped_videos ++
                 [⟨vid,
                   (if !(hasSub destinationMarker msg) then extractTitleFromMsg msg
                    else extractSkippedTitle msg),
                   msg⟩] }
    | none => t
  else t

/-- The title field built by `_extract_error_info`. -/
def extractErrorTitle (msg : List Char) : List Char :=
  if hasSub ("Video unavailable".data) msg || hasSub ("Private video".data) msg then
    "Unavailable/Private Video".data
  else if hasSub ("does not exist".data) msg then "Video Does Not Exist".data
  else "Unknown Video".data

/-- `_extract_error_info`: `none` exactly when no 11-character id token occurs
in the message (the `id` stayed `'unknown'`). -/
def extractErrorInfo (msg : List Char) : Option FailedRec :=
  match extractVideoId msg with
  | some vid => some ⟨vid, extractErrorTitle msg, msg, watchUrlStem ++ vid⟩
  | none => none

/-- `PlaylistErrorTracker.error`. -/
def trackerError (t : Tracker) (msg : List Char) : Tracker :=
  let t1 :=
    match extractErrorInfo msg with
    | some fi => { t with failed_videos := t.failed_videos ++ [fi] }
    | none => t
  { t1 with printed := t1.printed ++ [("ERROR: ".data) ++ msg] }

def sabrMarker : List Char := "SABR streaming".data

def missingUrlMarker : List Char := "missing a url".data

/-- `PlaylistErrorTracker.warning`. -/
def trackerWarning (t : Tracker) (msg : List Char) : Tracker :=
  let t1 := { t with warnings := t.warnings ++ [msg] }
  if !(hasSub sabrMarker msg || hasSub missingUrlMarker msg) then
    { t1 with printed := t1.printed ++ [("WARNING: ".data) ++ msg] }
  else t1

/-- One leveled log line handed to the tracker by the backend. -/
inductive LogEvent
| debug (msg : List Char)
| info (msg : List Char)
| warning (msg : List Char)
| error (msg : List Char)
deriving DecidableEq

/-- Dispatch of one log line to the tracker's handler of that level. -/
def trackerStep (t : Tracker) : LogEvent → Tracker
  | .debug _ => t
  | .info m => trackerInfo t m
  | .warning m => trackerWarning t m
  | .error m => trackerError t m

/-- Feed a whole session's log-line stream to the tracker. -/
def runLog (t : Tracker) (es : List LogEvent) : Tracker := es.foldl trackerStep t

/-! ## download_thread.py — progress_hook

Byte counters are natural numbers.  A dict field is `none` when absent; a
present-but-`None`/zero value and an absent one take the same (falsy) branch
in the source, so `some 0` and `none` behave alike under the truthiness tests.
Python's `int(x)` truncation of the float `downloaded / total * 100` is
modelled as exact floor division. -/

def downloadingStr : List Char := "downloading".data

def finishedStr : List Char := "finished".data

/-- The progress dict `d` handed to `progress_hook` by yt-dlp. -/
structure ProgressDict where
  status : List Char
  total_bytes : Option Nat
  total_bytes_estimate : Option Nat
  downloaded_bytes : Option Nat
deriving DecidableEq

/-- Division that records a would-be division by zero as `none` instead of
defaulting, so "the hook never divides by zero" is a provable statement. -/
def checkedDiv (a b : Nat) : Option Nat := if b = 0 then none else some (a / b)

/-- `int((downloaded / total) * 100)` with `downloaded = d.get('downloaded_bytes', 0)`. -/
def pctChecked (downloaded : Option Nat) (t : Nat) : Option Nat :=
  checkedDiv ((downloaded.getD 0) * 100) t

/-- The `elif 'total_bytes_estimate' in d and d['total_bytes_estimate']` branch. -/
def estimateBranchChecked (d : ProgressDict) : Option (List Nat) :=
  match d.total_bytes_estimate with
  | some te => if te ≠ 0 then (pctChecked d.downloaded_bytes te).map (fun p => [p]) else some []
  | none => some []

/-- The percentages emitted by one `progress_hook` call (ignoring the abort
check), with division-by-zero surfaced as `none`. -/
def progressEmitsChecked (d : ProgressDict) : Option (List Nat) :=
  if d.status = downloadingStr then
    match d.total_bytes with
    | some t =>
      if t ≠ 0 then (pctChecked d.downloaded_bytes t).map (fun p => [p])
      else estimateBranchChecked d
    | none => estimateBranchChecked d
  else if d.status = finishedStr then some [100]
  else some []

/-- The percentages emitted by one `progress_hook` call. -/
def progressEmits (d : ProgressDict) : List Nat := (progressEmitsChecked d).getD []

/-- Result of one `progress_hook` call: either the `KeyboardInterrupt` raised
on a pending abort request, or the emitted progress updates. -/
inductive HookResult
| interrupted
| emitted (ps : List Nat)
deriving DecidableEq

/-- `DownloadThread.progress_hook`. -/
def progress_hook (abort_requested : Bool) (d : ProgressDict) : HookResult :=
  if abort_requested then .interrupted else .emitted (progressEmits d)

/-! ## download_thread.py — DownloadThread.run -/

/-- Which `texts[...]` entry the emitted message is drawn from. -/
inductive MsgKind
| downloadComplete
| downloadWithSkips
| downloadSkipped
| downloadMixedResults
| downloadFailed
| downloadAllFailed
| downloadAborted
deriving DecidableEq

/-- The `download_complete.emit(success, message, failed_videos)` triple. -/
structure SessionResult where
  success : Bool
  msg : MsgKind
  items : List FailedRec
deriving DecidableEq

/-- Lines 268–299 of `download_thread.py`: the reduction of the tracker's
three lists to the emitted terminal triple on the non-aborted path. -/
def reduceOutcome (is_playlist : Bool) (t : Tracker) : SessionResult :=
  let failed_videos := t.failed_videos
  let successful_count := t.successful_videos.length
  let failed_count := failed_videos.length
  let skipped_count := t.skipped_videos.length
  if failed_count = 0 ∧ skipped_count = 0 then ⟨true, .downloadComplete, []⟩
  else if failed_count = 0 ∧ skipped_count > 0 then
    (if is_playlist ∧ skipped_count > 0 then ⟨true, .downloadWithSkips, []⟩
     else ⟨true, .downloadSkipped, []⟩)
  else if successful_count > 0 ∨ skipped_count > 0 then
    ⟨successful_count != 0,
     (if is_playlist then .downloadMixedResults else .downloadFailed), failed_videos⟩
  else ⟨false, .downloadAllFailed, failed_videos⟩

/-- One observable event during the backend invocation: a log line routed to
the tracker, a progress callback, or a `request_abort()` call landing. -/
inductive SessionEvent
| logLine (e : LogEvent)
| progressTick (d : ProgressDict)
| abortRequest
deriving DecidableEq

/-- The body of `DownloadThread.run` from the backend invocation on, driven by
the event trace: log lines feed the tracker; a progress callback with the
abort flag set raises `KeyboardInterrupt`, caught by the handler that emits
the aborted triple carrying `error_tracker.failed_videos`; when the backend
returns with the flag set, line 264 emits the aborted triple with an empty
list; otherwise the reduction runs. -/
def sessionLoop (is_playlist : Bool) : Tracker → Bool → List SessionEvent → SessionResult
  | t, ab, [] => if ab then ⟨false, .downloadAborted, []⟩ else reduceOutcome is_playlist t
  | t, _, .abortRequest :: rest => sessionLoop is_playlist t true rest
  | t, ab, .logLine e :: rest => sessionLoop is_playlist (trackerStep t e) ab rest
  | t, ab, .progressTick _ :: rest =>
    if ab then ⟨false, .downloadAborted, t.failed_videos⟩
    else sessionLoop is_playlist t ab rest

/-- `DownloadThread.run`: the pre-start abort check (line 198) followed by the
backend invocation. -/
def runSession (is_playlist abort_before : Bool) (events : List SessionEvent) : SessionResult :=
  if abort_before then ⟨false, .downloadAborted, []⟩
  else sessionLoop is_playlist initialTracker false events

/-! ## Spec-side definitions (for the refinement claims) -/

/-- The spec's `SessionOutcome.overall_status` enumeration (§3). -/
inductive OverallStatus
| SUCCESS
| PARTIAL_SUCCESS
| FAILURE
| ABORTED
deriving DecidableEq

/-- Follows the spec's words: the emitted `(success, message, items)` triple
read back as an `overall_status` — a true flag with an empty item list is
`SUCCESS`, a true flag with failures is `PARTIAL_SUCCESS`, a false flag is
`ABORTED` when the message is the aborted one and `FAILURE` otherwise. -/
def statusOfEmit (r : SessionResult) : OverallStatus :=
  if r.success then (if r.items.isEmpty then .SUCCESS else .PARTIAL_SUCCESS)
  else if r.msg = .downloadAborted then .ABORTED else .FAILURE

/-- Follows the spec's words (claim C1): the §4.5 reduction table on the three
counts — zero failed is `SUCCESS`; some failed with some succeeded or some
skipped is `PARTIAL_SUCCESS`; some failed with neither is `FAILURE`. -/
def specReductionTable (nSucc nSkip nFail : Nat) : OverallStatus :=
  if nFail = 0 then .SUCCESS
  else if 0 < nSucc ∨ 0 < nSkip then .PARTIAL_SUCCESS
  else .FAILURE

/-- The reduction table amended to what the code emits: with zero succeeded the
emitted success flag is false even when some items were skipped, so only
"some failed and some succeeded" yields `PARTIAL_SUCCESS`. -/
def specReductionTableAmended (nSucc _nSkip nFail : Nat) : OverallStatus :=
  if nFail = 0 then .SUCCESS
  else if 0 < nSucc then .PARTIAL_SUCCESS
  else .FAILURE

/-- Follows the spec's words (claim C6): a collection marker is a `list=`
query parameter, a `/playlist` path segment, or an `index=` query parameter,
matched case-insensitively. -/
def specCollectionMarker (url : List Char) : Bool :=
  let u := lowerStr url
  hasSub ("?list=".data) u || hasSub ("&list=".data) u ||
  hasSub ("/playlist".data) u ||
  hasSub ("?index=".data) u || hasSub ("&index=".data) u

/-- Claim C6's marker set amended to the code: the `/playlist` segment counts
only when immediately followed by the start of a query string (`/playlist?`). -/
def specCollectionMarkerAmended (url : List Char) : Bool :=
  let u := lowerStr url
  hasSub ("?list=".data) u || hasSub ("&list=".data) u ||
  hasSub ("/playlist?".data) u ||
  hasSub ("?index=".data) u || hasSub ("&index=".data) u

/-! ## Concrete inputs used by counterexamples and witnesses -/

def errMsgWithId : List Char := "ERROR: [youtube] dQw4w9WgXcQ: Video unavailable".data

def errMsgNoId : List Char := "ERROR: oops".data

def dupErrMsg : List Char := "ERROR: abcdefghijk twice".data

def abortErrMsg : List Char := "ERROR: zzzzzzzzzzz gone".data

def cexFailedRec : FailedRec :=
  ⟨"abcdefghijk".data, "Unknown Video".data, "boom".data, watchUrlStem ++ "abcdefghijk".data⟩

def cexSkippedRec : VideoRec := ⟨"ABCDEFGHIJK".data, "t".data, "m".data⟩

def cexProg50 : ProgressDict := ⟨downloadingStr, some 100, none, some 50⟩

def cexProg10 : ProgressDict := ⟨downloadingStr, some 100, none, some 10⟩

def cexPlaylistUrl : List Char := "https://x/playlist".data

/-! ## Helper lemmas -/

theorem lookupOpt_eq_some_mem (m : List (List Char × List Char)) (k v : List Char)
    (h : lookupOpt m k = some v) : (k, v) ∈ m := by
  induction m with
  | nil => simp [lookupOpt] at h
  | cons kv rest ih =>
    rw [lookupOpt] at h
    split at h
    · next heq =>
      injection h with h
      subst h; subst heq
      exact List.mem_cons_self _ _
    · exact List.mem_cons_of_mem _ (ih h)

theorem lookupD_ne_nil (m : List (List Char × List Char)) (k d : List Char)
    (hm : ∀ kv ∈ m, kv.2 ≠ []) (hd : d ≠ []) : lookupD m k d ≠ [] := by
  unfold lookupD
  cases h : lookupOpt m k with
  | none => simpa using hd
  | some v => simpa using hm _ (lookupOpt_eq_some_mem m k v h)

/-- Every value stored in the quality reverse map is a fixed point of
`canonicalize`. -/
theorem reverse_map_values_fixed :
    ∀ kv ∈ get_quality_reverse_map, canonicalize kv.2 = kv.2 := by decide

/-! ## Claim C8 -/

/-- C8: `canonicalize` is idempotent; every already-canonical token is
returned unchanged; all four localized "Best" phrases canonicalize to the same
token `"Best"`; and any input outside the mapping's domain is returned
unchanged. -/
theorem C8_canonicalize_idempotent :
    (∀ q, canonicalize (canonicalize q) = canonicalize q) ∧
    (canonicalize ("Best".data) = "Best".data ∧ canonicalize ("Lowest".data) = "Lowest".data ∧
     canonicalize ("High".data) = "High".data ∧ canonicalize ("Medium".data) = "Medium".data ∧
     canonicalize ("Low".data) = "Low".data) ∧
    (canonicalize ("Best".data) = "Best".data ∧ canonicalize ("Beste".data) = "Best".data ∧
     canonicalize ("Mejor".data) = "Best".data ∧ canonicalize ("Meilleure".data) = "Best".data) ∧
    (∀ q, lookupOpt get_quality_reverse_map q = none → canonicalize q = q) := by
  refine ⟨?_, by decide, by decide, ?_⟩
  · intro q
    cases h : lookupOpt get_quality_reverse_map q with
    | none =>
      have hq : canonicalize q = q := by simp [canonicalize, lookupD, h]
      rw [hq]; exact hq
    | some v =>
      have hq : canonicalize q = v := by simp [canonicalize, lookupD, h]
      rw [hq, reverse_map_values_fixed (q, v) (lookupOpt_eq_some_mem _ _ _ h)]
  · intro q h
    simp [canonicalize, lookupD, h]

/-- Witness for C8: the unknown token `"zzz"` is returned unchanged. -/
theorem C8_canonicalize_idempotent_witness : canonicalize ("zzz".data) = "zzz".data :=
  C8_canonicalize_idempotent.2.2.2 ("zzz".data) (by decide)

/-! ## Claim C3 -/

/-- C3 fails as stated: for the MP3 container an unknown quality token falls
back to the 192 kbps (MEDIUM) bitrate, not to the HIGH (320 kbps) parameters,
so the result differs from the container's HIGH-quality resolution. -/
theorem C3_claim_counterexample :
    get_format_options ("MP3".data) ("Unknown".data)
      ≠ get_format_options ("MP3".data) ("High".data) := by decide

/-- C3 (amended): `resolve` never errs on an unknown quality token: the video
containers fall back to their `BEST` selector, but MP3 falls back to the
MEDIUM (192 kbps) bitrate and WAV to the unfiltered `bestaudio/best` selector,
not to the HIGH-quality parameters. -/
theorem C3_amended_unknown_quality (q : List Char) :
    (lookupOpt mp4_quality_formats (canonicalize q) = none →
       get_format_options ("MP4".data) q = get_format_options ("MP4".data) ("Best".data)) ∧
    (lookupOpt webm_quality_formats (canonicalize q) = none →
       get_format_options ("WEBM".data) q = get_format_options ("WEBM".data) ("Best".data)) ∧
    (lookupOpt audio_quality_map (canonicalize q) = none →
       get_format_options ("MP3".data) q =
         ("bestaudio/best".data, [⟨"FFmpegExtractAudio".data, "mp3".data, some ("192".data)⟩])) ∧
    (lookupOpt audio_source_map (canonicalize q) = none →
       get_format_options ("WAV".data) q =
         ("bestaudio/best".data, [⟨"FFmpegExtractAudio".data, "wav".data, none⟩])) := by
  refine ⟨?_, ?_, ?_, ?_⟩ <;> intro h
  · have e : get_format_options ("MP4".data) q
        = ((lookupOpt mp4_quality_formats (canonicalize q)).getD
             (lookupD mp4_quality_formats ("Best".data) []), []) := rfl
    rw [e, h]; decide
  · have e : get_format_options ("WEBM".data) q
        = ((lookupOpt webm_quality_formats (canonicalize q)).getD
             (lookupD webm_quality_formats ("Best".data) []), []) := rfl
    rw [e, h]; decide
  · have e : get_format_options ("MP3".data) q
        = ("bestaudio/best".data,
           [⟨"FFmpegExtractAudio".data, "mp3".data,
             some ((lookupOpt audio_quality_map (canonicalize q)).getD ("192".data))⟩]) := rfl
    rw [e, h]; rfl
  · have e : get_format_options ("WAV".data) q
        = ((lookupOpt audio_source_map (canonicalize q)).getD ("bestaudio/best".data),
           [⟨"FFmpegExtractAudio".data, "wav".data, none⟩]) := rfl
    rw [e, h]; rfl

/-- Witness for the amended C3 at the unknown token `"zzz"`. -/
theorem C3_amended_unknown_quality_witness :
    get_format_options ("MP4".data) ("zzz".data) = get_format_options ("MP4".data) ("Best".data) ∧
    get_format_options ("MP3".data) ("zzz".data) =
      ("bestaudio/best".data, [⟨"FFmpegExtractAudio".data, "mp3".data, some ("192".data)⟩]) :=
  ⟨(C3_amended_unknown_quality ("zzz".data)).1 (by decide),
   (C3_amended_unknown_quality ("zzz".data)).2.2.1 (by decide)⟩

/-! ## Claim C9 -/

/-- C9: `get_format_options` is total: for every pair of strings it returns a
non-empty selector, and any format type outside MP4/WEBM/MP3/WAV yields
`("best", [])`. -/
theorem C9_get_format_options_total (format_type quality : List Char) :
    (get_format_options format_type quality).1 ≠ [] ∧
    (format_type ≠ ("MP4".data) → format_type ≠ ("WEBM".data) →
     format_type ≠ ("MP3".data) → format_type ≠ ("WAV".data) →
     get_format_options format_type quality = ("best".data, [])) := by
  by_cases h1 : format_type = ("MP4".data)
  · subst h1
    refine ⟨?_, fun hc _ _ _ => absurd rfl hc⟩
    show lookupD mp4_quality_formats (canonicalize quality)
          (lookupD mp4_quality_formats ("Best".data) []) ≠ []
    exact lookupD_ne_nil _ _ _ (by decide) (by decide)
  by_cases h2 : format_type = ("WEBM".data)
  · subst h2
    refine ⟨?_, fun _ hc _ _ => absurd rfl hc⟩
    show lookupD webm_quality_formats (canonicalize quality)
          (lookupD webm_quality_formats ("Best".data) []) ≠ []
    exact lookupD_ne_nil _ _ _ (by decide) (by decide)
  by_cases h3 : format_type = ("MP3".data)
  · subst h3
    refine ⟨?_, fun _ _ hc _ => absurd rfl hc⟩
    show ("bestaudio/best".data : List Char) ≠ []
    decide
  by_cases h4 : format_type = ("WAV".data)
  · subst h4
    refine ⟨?_, fun _ _ _ hc => absurd rfl hc⟩
    show lookupD audio_source_map (canonicalize quality) ("bestaudio/best".data) ≠ []
    exact lookupD_ne_nil _ _ _ (by decide) (by decide)
  · have e : get_format_options format_type quality = ("best".data, []) := by
      unfold get_format_options
      rw [if_neg h1, if_neg h2, if_neg h3, if_neg h4]
    exact ⟨by rw [e]; decide, fun _ _ _ _ => e⟩

/-- Witness for C9 at the unrecognized format type `"FLAC"`. -/
theorem C9_get_format_options_total_witness :
    get_format_options ("FLAC".data) ("x".data) = ("best".data, []) :=
  (C9_get_format_options_total ("FLAC".data) ("x".data)).2
    (by decide) (by decide) (by decide) (by decide)

/-! ## Claim C6 -/

/-- C6 fails as stated: `https://x/playlist` contains a `/playlist` path
segment (a spec collection marker), yet the code's pattern is `/playlist\?`
and classifies it as not a collection. -/
theorem C6_claim_counterexample :
    specCollectionMarker cexPlaylistUrl = true ∧ is_playlist_url cexPlaylistUrl = false := by
  decide

/-- C6 (amended): `is_playlist_url` is a pure string match that is true exactly
when the URL contains (case-insensitively) a `list=` query parameter, the
`/playlist` segment immediately followed by a query string (`/playlist?`), or
an `index=` query parameter; in particular it is true for
`https://x/watch?v=abc&list=PL123` and `https://x/playlist?list=PL123` and
false for `https://x/watch?v=abc`. -/
theorem C6_amended_markers :
    (∀ url, is_playlist_url url = specCollectionMarkerAmended url) ∧
    is_playlist_url ("https://x/watch?v=abc&list=PL123".data) = true ∧
    is_playlist_url ("https://x/playlist?list=PL123".data) = true ∧
    is_playlist_url ("https://x/watch?v=abc".data) = false :=
  ⟨fun _ => rfl, by decide, by decide, by decide⟩

/-! ## Claim C5 -/

/-- C5: on an error-level line, if an 11-character identifier token is
extractable the tracker appends exactly one FAILED record carrying the raw
message and the reconstructed URL `https://www.youtube.com/watch?v=<id>`;
otherwise no record is appended and the line is only retained on the
diagnostics (console) channel, which receives every error line. -/
theorem C5_error_line_attribution (t : Tracker) (msg : List Char) :
    (∀ vid, extractVideoId msg = some vid →
       (trackerError t msg).failed_videos
         = t.failed_videos ++ [⟨vid, extractErrorTitle msg, msg, watchUrlStem ++ vid⟩]) ∧
    (extractVideoId msg = none →
       (trackerError t msg).failed_videos = t.failed_videos) ∧
    (trackerError t msg).printed = t.printed ++ [("ERROR: ".data) ++ msg] := by
  refine ⟨?_, ?_, ?_⟩
  · intro vid h
    simp [trackerError, extractErrorInfo, h]
  · intro h
    simp [trackerError, extractErrorInfo, h]
  · cases h : extractVideoId msg <;> simp [trackerError, extractErrorInfo, h]

/-- Witness for C5: a concrete error line with an extractable id appends the
attributed FAILED record, and one with no id token appends nothing. -/
theorem C5_error_line_attribution_witness :
    (trackerError initialTracker errMsgWithId).failed_videos
      = [⟨"dQw4w9WgXcQ".data, extractErrorTitle errMsgWithId, errMsgWithId,
          watchUrlStem ++ "dQw4w9WgXcQ".data⟩] ∧
    (trackerError initialTracker errMsgNoId).failed_videos = [] :=
  ⟨by
     have h := (C5_error_line_attribution initialTracker errMsgWithId).1
       ("dQw4w9WgXcQ".data) (by decide)
     simpa [initialTracker] using h,
   by
     have h := (C5_error_line_attribution initialTracker errMsgNoId).2.1 (by decide)
     simpa [initialTracker] using h⟩

/-! ## Claim C2 -/

/-- C2 fails as stated: `PlaylistErrorTracker.error` performs no deduplication,
so the same error line fed twice yields two FAILED records with the same
identifier. -/
theorem C2_claim_counterexample :
    ((runLog initialTracker [.error dupErrMsg, .error dupErrMsg]).failed_videos.map
        FailedRec.id)
      = ["abcdefghijk".data, "abcdefghijk".data] ∧
    ¬ ((runLog initialTracker [.error dupErrMsg, .error dupErrMsg]).failed_videos.map
        FailedRec.id).Nodup := by
  decide

theorem any_id_eq_false_not_mem {l : List VideoRec} {vid : List Char}
    (h : l.any (fun v => v.id == vid) = false) : vid ∉ l.map VideoRec.id := by
  simp only [List.any_eq_false, beq_iff_eq] at h
  intro hm
  rcases List.mem_map.mp hm with ⟨v, hv, hid⟩
  exact h v hv hid

theorem nodup_map_id_append {l : List VideoRec} {r : VideoRec}
    (h : (l.map VideoRec.id).Nodup) (hn : r.id ∉ l.map VideoRec.id) :
    (((l ++ [r]).map VideoRec.id)).Nodup := by
  rw [List.map_append]
  refine List.nodup_append.mpr ⟨h, List.nodup_singleton _, ?_⟩
  intro a ha hb
  simp only [List.map_cons, List.map_nil, List.mem_singleton] at hb
  subst hb
  exact hn ha

theorem trackerWarning_successful (t : Tracker) (m : List Char) :
    (trackerWarning t m).successful_videos = t.successful_videos := by
  unfold trackerWarning; split <;> rfl

theorem trackerWarning_skipped (t : Tracker) (m : List Char) :
    (trackerWarning t m).skipped_videos = t.skipped_videos := by
  unfold trackerWarning; split <;> rfl

theorem trackerError_successful (t : Tracker) (m : List Char) :
    (trackerError t m).successful_videos = t.successful_videos := by
  unfold trackerError; cases extractErrorInfo m <;> rfl

theorem trackerError_skipped (t : Tracker) (m : List Char) :
    (trackerError t m).skipped_videos = t.skipped_videos := by
  unfold trackerError; cases extractErrorInfo m <;> rfl

/-- `PlaylistErrorTracker.info` either leaves the succeeded list unchanged or
appends one record whose identifier was not yet recorded. -/
theorem trackerInfo_successful_spec (t : Tracker) (m : List Char) :
    (trackerInfo t m).successful_videos = t.successful_videos ∨
    ∃ vid, extractVideoId m = some vid ∧
      t.successful_videos.any (fun v => v.id == vid) = false ∧
      (trackerInfo t m).successful_videos
        = t.successful_videos ++ [⟨vid, extractTitleFromMsg m, m⟩] := by
  by_cases hd : hasSub destinationMarker m
  · cases hx : extractVideoId m with
    | none => left; simp [trackerInfo, hd, hx]
    | some vid =>
      by_cases ha : t.successful_videos.any (fun v => v.id == vid)
      · left; simp [trackerInfo, hd, hx, ha]
      · right
        exact ⟨vid, rfl, by simpa using ha, by simp [trackerInfo, hd, hx, ha]⟩
  · left
    by_cases hs : (hasSub alreadyDownloadedMarker m || hasSub skippingMarker m)
    · cases hx : extractVideoId m with
      | none => simp [trackerInfo, hd, hs, hx]
      | some vid =>
        by_cases ha : t.skipped_videos.any (fun v => v.id == vid)
        · simp [trackerInfo, hd, hs, hx, ha]
        · simp [trackerInfo, hd, hs, hx, ha]
    · simp [trackerInfo, hd, hs]

/-- `PlaylistErrorTracker.info` either leaves the skipped list unchanged or
appends one record whose identifier was not yet recorded. -/
theorem trackerInfo_skipped_spec (t : Tracker) (m : List Char) :
    (trackerInfo t m).skipped_videos = t.skipped_videos ∨
    ∃ vid, extractVideoId m = some vid ∧
      t.skipped_videos.any (fun v => v.id == vid) = false ∧
      ∃ title, (trackerInfo t m).skipped_videos
        = t.skipped_videos ++ [⟨vid, title, m⟩] := by
  by_cases hd : hasSub destinationMarker m
  · left
    cases hx : extractVideoId m with
    | none => simp [trackerInfo, hd, hx]
    | some vid =>
      by_cases ha : t.successful_videos.any (fun v => v.id == vid)
      · simp [trackerInfo, hd, hx, ha]
      · simp [trackerInfo, hd, hx, ha]
  · by_cases hs : (hasSub alreadyDownloadedMarker m || hasSub skippingMarker m)
    · cases hx : extractVideoId m with
      | none => left; simp [trackerInfo, hd, hs, hx]
      | some vid =>
        by_cases ha : t.skipped_videos.any (fun v => v.id == vid)
        · left; simp [trackerInfo, hd, hs, hx, ha]
        · right
          exact ⟨vid, rfl, by simpa using ha, extractTitleFromMsg m,
                 by simp [trackerInfo, hd, hs, hx, ha]⟩
    · left; simp [trackerInfo, hd, hs]

/-- One tracker step preserves identifier-uniqueness of the succeeded and
skipped lists. -/
theorem trackerStep_nodup (t : Tracker) (e : LogEvent)
    (h1 : (t.successful_videos.map VideoRec.id).Nodup)
    (h2 : (t.skipped_videos.map VideoRec.id).Nodup) :
    ((trackerStep t e).successful_videos.map VideoRec.id).Nodup ∧
    ((trackerStep t e).skipped_videos.map VideoRec.id).Nodup := by
  cases e with
  | debug m => exact ⟨h1, h2⟩
  | warning m =>
    simp only [trackerStep]
    rw [trackerWarning_successful, trackerWarning_skipped]
    exact ⟨h1, h2⟩
  | error m =>
    simp only [trackerStep]
    rw [trackerError_successful, trackerError_skipped]
    exact ⟨h1, h2⟩
  | info m =>
    simp only [trackerStep]
    constructor
    · rcases trackerInfo_successful_spec t m with h | ⟨vid, _, ha, h⟩
      · rw [h]; exact h1
      · rw [h]; exact nodup_map_id_append h1 (any_id_eq_false_not_mem ha)
    · rcases trackerInfo_skipped_spec t m with h | ⟨vid, _, ha, title, h⟩
      · rw [h]; exact h2
      · rw [h]; exact nodup_map_id_append h2 (any_id_eq_false_not_mem ha)

/-- Feeding any log stream preserves identifier-uniqueness. -/
theorem runLog_nodup : ∀ (es : List LogEvent) (t : Tracker),
    (t.successful_videos.map VideoRec.id).Nodup →
    (t.skipped_videos.map VideoRec.id).Nodup →
    ((runLog t es).successful_videos.map VideoRec.id).Nodup ∧
    ((runLog t es).skipped_videos.map VideoRec.id).Nodup
  | [], _, h1, h2 => ⟨h1, h2⟩
  | e :: rest, t, h1, h2 => by
    have hstep := trackerStep_nodup t e h1 h2
    exact runLog_nodup rest (trackerStep t e) hstep.1 hstep.2

/-- `PlaylistErrorTracker.info` is idempotent: re-feeding the same info line
never adds a second record. -/
theorem trackerInfo_idem (t : Tracker) (m : List Char) :
    trackerInfo (trackerInfo t m) m = trackerInfo t m := by
  by_cases hd : hasSub destinationMarker m
  · cases hx : extractVideoId m with
    | none => simp [trackerInfo, hd, hx]
    | some vid =>
      by_cases ha : t.successful_videos.any (fun v => v.id == vid)
      · simp [trackerInfo, hd, hx, ha]
      · simp [trackerInfo, hd, hx, ha, List.any_append]
  · by_cases hs : (hasSub alreadyDownloadedMarker m || hasSub skippingMarker m)
    · cases hx : extractVideoId m with
      | none => simp [trackerInfo, hd, hs, hx]
      | some vid =>
        by_cases ha : t.skipped_videos.any (fun v => v.id == vid)
        · simp [trackerInfo, hd, hs, hx, ha]
        · simp [trackerInfo, hd, hs, hx, ha, List.any_append]
    · simp [trackerInfo, hd, hs]

/-- C2 (amended): across any log stream fed to a fresh tracker, identifiers
are unique within the SUCCEEDED records and within the SKIPPED_EXISTING
records (the same destination or skip line fed twice yields one record, since
`info` is idempotent); FAILED records, however, are not deduplicated. -/
theorem C2_amended_dedup (es : List LogEvent) :
    ((runLog initialTracker es).successful_videos.map VideoRec.id).Nodup ∧
    ((runLog initialTracker es).skipped_videos.map VideoRec.id).Nodup ∧
    (∀ t m, trackerInfo (trackerInfo t m) m = trackerInfo t m) := by
  have h := runLog_nodup es initialTracker (by decide) (by decide)
  exact ⟨h.1, h.2, trackerInfo_idem⟩

/-! ## Claim C10 -/

theorem pctChecked_of_ne_zero (dl : Option Nat) (t : Nat) (ht : t ≠ 0) :
    pctChecked dl t = some ((dl.getD 0) * 100 / t) := by
  simp [pctChecked, checkedDiv, ht]

theorem estimateBranchChecked_ne_none (d : ProgressDict) :
    estimateBranchChecked d ≠ none := by
  unfold estimateBranchChecked
  cases hte : d.total_bytes_estimate with
  | none => simp
  | some te =>
    by_cases h : te = 0
    · simp [h]
    · simp [h, pctChecked_of_ne_zero]

/-- C10: the percentage division in `progress_hook` is guarded — it happens
only under a present-and-nonzero total, so no call divides by zero; a missing
`downloaded_bytes` defaults to 0 (emitting 0%); and every emitted percentage
is a non-negative integer. -/
theorem C10_progress_division_guarded (d : ProgressDict) :
    progressEmitsChecked d ≠ none ∧
    (d.downloaded_bytes = none → d.status = downloadingStr →
       ∀ tt, d.total_bytes = some tt → tt ≠ 0 → progressEmits d = [0]) ∧
    (∀ p ∈ progressEmits d, 0 ≤ p) := by
  refine ⟨?_, ?_, fun p _ => Nat.zero_le p⟩
  · unfold progressEmitsChecked
    by_cases hs : d.status = downloadingStr
    · simp only [hs, if_true]
      cases htb : d.total_bytes with
      | none => exact estimateBranchChecked_ne_none d
      | some t =>
        by_cases ht : t = 0
        · simp only [ht]
          simpa using estimateBranchChecked_ne_none d
        · simp [ht, pctChecked_of_ne_zero]
    · rw [if_neg hs]
      by_cases hf : d.status = finishedStr
      · rw [if_pos hf]; simp
      · rw [if_neg hf]; simp
  · intro hdl hs tt htb ht
    unfold progressEmits progressEmitsChecked
    rw [hs, htb]
    simp [ht, pctChecked_of_ne_zero, hdl]

/-- Witness for C10: a downloading event with an absent byte counter and a
nonzero total emits 0% and takes no division-by-zero branch. -/
theorem C10_progress_division_guarded_witness :
    progressEmits ⟨downloadingStr, some 7, none, none⟩ = [0] ∧
    progressEmitsChecked ⟨downloadingStr, some 0, none, some 5⟩ ≠ none :=
  ⟨(C10_progress_division_guarded ⟨downloadingStr, some 7, none, none⟩).2.1
     rfl rfl 7 rfl (by decide),
   (C10_progress_division_guarded ⟨downloadingStr, some 0, none, some 5⟩).1⟩

/-! ## Claim C7 -/

/-- C7 fails as stated: `progress_hook` enforces no monotonicity — a later
callback reporting fewer downloaded bytes makes the published percentages
decrease (50% followed by 10%). -/
theorem C7_claim_counterexample :
    (([cexProg50, cexProg10].map progressEmits).flatten = [50, 10]) ∧
    ¬ List.Chain' (fun a b => a ≤ b) (([cexProg50, cexProg10].map progressEmits).flatten) := by
  have e : ([cexProg50, cexProg10].map progressEmits).flatten = [50, 10] := by decide
  refine ⟨e, ?_⟩
  rw [e]
  intro h
  have h1 := (List.chain'_cons.mp h).1
  omega

theorem progressEmits_downloading (d : ProgressDict) (tt : Nat)
    (hs : d.status = downloadingStr) (htb : d.total_bytes = some tt) (ht : tt ≠ 0) :
    progressEmits d = [(d.downloaded_bytes.getD 0) * 100 / tt] := by
  unfold progressEmits progressEmitsChecked
  rw [hs, htb]
  simp [ht, pctChecked_of_ne_zero]

theorem join_map_eq_map {α β : Type} (f : α → List β) (g : α → β) (l : List α)
    (h : ∀ x ∈ l, f x = [g x]) : (l.map f).flatten = l.map g := by
  induction l with
  | nil => rfl
  | cons a r ih =>
    simp only [List.map_cons, List.flatten_cons, h a (List.mem_cons_self a r),
      ih (fun x hx => h x (List.mem_cons_of_mem a hx))]
    rfl

/-- C7 (amended): when both an exact and an estimated total are present the
exact one is used, provided it is nonzero (a zero/absent exact total falls
through to the estimate); a finished event emits 100%; and the published
percentages are non-decreasing within an item provided the backend reports a
fixed nonzero exact total and non-decreasing downloaded bytes — the hook
itself enforces no monotonicity. -/
theorem C7_amended_progress (dl : Option Nat) (t e : Nat) (ds : List ProgressDict) (tt : Nat)
    (ht : tt ≠ 0)
    (hall : ∀ d ∈ ds, d.status = downloadingStr ∧ d.total_bytes = some tt)
    (hmono : List.Chain' (fun a b => a.downloaded_bytes.getD 0 ≤ b.downloaded_bytes.getD 0) ds) :
    (t ≠ 0 → progressEmits ⟨downloadingStr, some t, some e, dl⟩ = [(dl.getD 0) * 100 / t]) ∧
    progressEmits ⟨finishedStr, some t, some e, dl⟩ = [100] ∧
    List.Chain' (fun a b => a ≤ b) ((ds.map progressEmits).flatten) := by
  refine ⟨?_, rfl, ?_⟩
  · intro htz
    exact progressEmits_downloading _ t rfl rfl htz
  · rw [join_map_eq_map progressEmits (fun d => (d.downloaded_bytes.getD 0) * 100 / tt) ds
      (fun d hd => progressEmits_downloading d tt (hall d hd).1 (hall d hd).2 ht)]
    rw [List.chain'_map]
    refine hmono.imp ?_
    intro a b hab
    exact Nat.div_le_div_right (Nat.mul_le_mul_right 100 hab)

/-- Witness for the amended C7 on a concrete non-decreasing two-event item. -/
theorem C7_amended_progress_witness :
    progressEmits ⟨downloadingStr, some 200, some 50, some 30⟩ = [15] ∧
    progressEmits ⟨finishedStr, some 200, some 50, some 30⟩ = [100] ∧
    List.Chain' (fun a b => a ≤ b)
      (([(⟨downloadingStr, some 200, none, some 30⟩ : ProgressDict),
         ⟨downloadingStr, some 200, none, some 90⟩].map progressEmits).flatten) := by
  have h := C7_amended_progress (some 30) 200 50
    [⟨downloadingStr, some 200, none, some 30⟩, ⟨downloadingStr, some 200, none, some 90⟩]
    200 (by decide) (by decide)
    (List.chain'_cons.mpr ⟨by decide, List.chain'_singleton _⟩)
  exact ⟨h.1 (by decide), h.2.1, h.2.2⟩

/-! ## Claim C1 -/

/-- C1 fails as stated: with zero succeeded, one skipped and one failed, the
spec table says `PARTIAL_SUCCESS`, but the code emits the success flag
`successful_count > 0 = false`, i.e. a `FAILURE`-shaped outcome. -/
theorem C1_claim_counterexample :
    statusOfEmit (reduceOutcome true ⟨[cexFailedRec], [], [cexSkippedRec], [], []⟩)
      = .FAILURE ∧
    specReductionTable 0 1 1 = .PARTIAL_SUCCESS := by
  decide

/-- C1 (amended): the non-aborted reduction yields `SUCCESS` when zero failed
(with an empty item list), `PARTIAL_SUCCESS` exactly when some failed and some
succeeded, and a `FAILURE`-flagged outcome when some failed and zero succeeded
— even when some were skipped; whenever any item failed the emitted item list
is exactly the failed records. -/
theorem C1_amended_reduction (p : Bool) (t : Tracker) :
    statusOfEmit (reduceOutcome p t)
      = specReductionTableAmended t.successful_videos.length t.skipped_videos.length
          t.failed_videos.length ∧
    (reduceOutcome p t).items
      = (if t.failed_videos.length = 0 then [] else t.failed_videos) := by
  by_cases hf : t.failed_videos.length = 0
  · by_cases hsk : t.skipped_videos.length = 0
    · have e : reduceOutcome p t = ⟨true, .downloadComplete, []⟩ := by
        simp only [reduceOutcome]
        rw [if_pos ⟨hf, hsk⟩]
      rw [e]
      exact ⟨by simp [statusOfEmit, specReductionTableAmended, hf], by simp [hf]⟩
    · have hskpos : 0 < t.skipped_videos.length := Nat.pos_of_ne_zero hsk
      have e : reduceOutcome p t
          = (if p ∧ 0 < t.skipped_videos.length then ⟨true, .downloadWithSkips, []⟩
             else ⟨true, .downloadSkipped, []⟩) := by
        simp only [reduceOutcome]
        rw [if_neg (fun hc => hsk hc.2), if_pos ⟨hf, hskpos⟩]
      rw [e]
      constructor
      · split <;> simp [statusOfEmit, specReductionTableAmended, hf]
      · split <;> simp [hf]
  · have hne : t.failed_videos ≠ [] := fun hnil => hf (by rw [hnil]; rfl)
    have hc1 : ¬(t.failed_videos.length = 0 ∧ t.skipped_videos.length = 0) :=
      fun hc => hf hc.1
    have hc2 : ¬(t.failed_videos.length = 0 ∧ 0 < t.skipped_videos.length) :=
      fun hc => hf hc.1
    by_cases hsc : t.successful_videos.length = 0
    · by_cases hsk : t.skipped_videos.length = 0
      · have e : reduceOutcome p t = ⟨false, .downloadAllFailed, t.failed_videos⟩ := by
          simp only [reduceOutcome]
          rw [if_neg hc1, if_neg hc2, if_neg (by omega)]
        rw [e]
        constructor
        · simp [statusOfEmit, specReductionTableAmended, hf, hsc]
        · simp [hf]
      · have e : reduceOutcome p t
            = ⟨t.successful_videos.length != 0,
               (if p then .downloadMixedResults else .downloadFailed), t.failed_videos⟩ := by
          simp only [reduceOutcome]
          rw [if_neg hc1, if_neg hc2, if_pos (Or.inr (Nat.pos_of_ne_zero hsk))]
        rw [e]
        constructor
        · rw [hsc]
          cases p <;> simp [statusOfEmit, specReductionTableAmended, hf, hsc]
        · simp [hf]
    · have e : reduceOutcome p t
          = ⟨t.successful_videos.length != 0,
             (if p then .downloadMixedResults else .downloadFailed), t.failed_videos⟩ := by
        simp only [reduceOutcome]
        rw [if_neg hc1, if_neg hc2, if_pos (Or.inl (Nat.pos_of_ne_zero hsc))]
      rw [e]
      constructor
      · have hb : (t.successful_videos.length != 0) = true := by simpa using hsc
        simp [statusOfEmit, specReductionTableAmended, hf, hb, hne,
          Nat.pos_of_ne_zero hsc, List.isEmpty_iff]
      · simp [hf]

/-! ## Claim C4 -/

/-- Once the abort flag is set, or a `request_abort` lands during the backend
run, the session terminates with the aborted message and a false success flag. -/
theorem sessionLoop_abort (p : Bool) :
    ∀ (events : List SessionEvent) (t : Tracker) (ab : Bool),
      (ab = true ∨ SessionEvent.abortRequest ∈ events) →
      (sessionLoop p t ab events).success = false ∧
      (sessionLoop p t ab events).msg = .downloadAborted
  | [], _, ab, h => by
    rcases h with h | h
    · subst h; exact ⟨rfl, rfl⟩
    · simp at h
  | .abortRequest :: rest, t, ab, _ =>
    sessionLoop_abort p rest t true (Or.inl rfl)
  | .logLine e :: rest, t, ab, h => by
    refine sessionLoop_abort p rest (trackerStep t e) ab ?_
    rcases h with h | h
    · exact Or.inl h
    · rcases List.mem_cons.mp h with h | h
      · simp at h
      · exact Or.inr h
  | .progressTick d :: rest, t, ab, h => by
    cases ab with
    | true => exact ⟨rfl, rfl⟩
    | false =>
      refine sessionLoop_abort p rest t false ?_
      rcases h with h | h
      · simp at h
      · rcases List.mem_cons.mp h with h | h
        · simp at h
        · exact Or.inr h

/-- C4 fails as stated: when the abort request is observed only after the
backend returned (no further progress callback), line 264 emits an empty item
list even though a FAILED record had accumulated, so the ABORTED outcome does
not carry the accumulated partial item list. -/
theorem C4_claim_counterexample :
    runSession true false [.logLine (.error abortErrMsg), .abortRequest]
      = ⟨false, .downloadAborted, []⟩ ∧
    (runLog initialTracker [.error abortErrMsg]).failed_videos ≠ [] := by
  decide

/-- C4 (amended): once an abort has been requested — before the session starts
or at any point of the run — the outcome is `ABORTED` with a false success
flag and never `SUCCESS`; an abort observed at a progress callback raises the
cancellation signal and carries the failed records accumulated so far; but an
abort requested before start, or observed only after the backend returned,
yields an empty item list. -/
theorem C4_amended_abort (p ab : Bool) (events : List SessionEvent)
    (h : ab = true ∨ SessionEvent.abortRequest ∈ events) :
    (runSession p ab events).success = false ∧
    (runSession p ab events).msg = .downloadAborted ∧
    statusOfEmit (runSession p ab events) = .ABORTED ∧
    (∀ (t : Tracker) (d : ProgressDict) rest,
       sessionLoop p t true (.progressTick d :: rest)
         = ⟨false, .downloadAborted, t.failed_videos⟩) ∧
    runSession p true events = ⟨false, .downloadAborted, []⟩ := by
  have hmain : (runSession p ab events).success = false ∧
      (runSession p ab events).msg = .downloadAborted := by
    cases ab with
    | true => exact ⟨rfl, rfl⟩
    | false =>
      rcases h with h | h
      · simp at h
      · exact sessionLoop_abort p events initialTracker false (Or.inr h)
  refine ⟨hmain.1, hmain.2, ?_, fun _ _ _ => rfl, rfl⟩
  simp [statusOfEmit, hmain.1, hmain.2]

/-- Witness for the amended C4: a single landed abort request yields the
aborted, non-success outcome. -/
theorem C4_amended_abort_witness :
    (runSession true false [SessionEvent.abortRequest]).success = false ∧
    statusOfEmit (runSession true false [SessionEvent.abortRequest]) = .ABORTED :=
  ⟨(C4_amended_abort true false [SessionEvent.abortRequest]
      (Or.inr (List.mem_singleton.mpr rfl))).1,
   (C4_amended_abort true false [SessionEvent.abortRequest]
      (Or.inr (List.mem_singleton.mpr rfl))).2.2.1⟩

end YTD
